import Mathlib

/-!
Verification of the streaming conversation core of `Prometheus.py`
(a desktop chat front-end over a local text-generation model).

The development shallowly embeds the Python functions that the
specification's claims are about: the corruption-tolerant conversation
loader (`load_conversation_file`, `repair_json_file`,
`create_default_conversation`), the temp-write/remove/rename save path
(`save_conversation`), the queue consumer (`check_queue`), the streaming
generator (`generate_response_streaming`) with its chunk-token extraction,
prompt builder (`build_prompt`), duplicate check (`is_duplicate_response`),
code-response formatting (`format_code_response`,
`looks_like_python_code`, `generate_statistics_code`), and the prose/code
segmentation used for display (`extract_code_blocks`,
`display_ai_message_with_code`).

Python strings are modelled as Lean `String`s with character-based
indexing (`List Char`), matching Python's character indices.  `str.strip`,
`str.lower` and the regular-expression character class `\s` are modelled
on their ASCII fragment, which agrees with Python on all the literals
involved.
-/

namespace PrometheusSpec

/-- ASCII whitespace exactly as in Python's `str.strip` / regex `\s`
(space, tab, newline, carriage return, vertical tab, form feed). -/
def isPySpace (c : Char) : Bool :=
  c == ' ' || c == '\t' || c == '\n' || c == '\r' || c == '\x0b' || c == '\x0c'

/-- Python `s.strip()` (ASCII-whitespace fragment). -/
def pyStrip (s : String) : String :=
  String.mk (((s.data.dropWhile isPySpace).reverse.dropWhile isPySpace).reverse)

/-- Python `s.lower()` (ASCII fragment; agrees with Python on every ASCII letter). -/
def pyLower (s : String) : String :=
  String.mk (s.data.map Char.toLower)

/-- Python `s.startswith(pre)`. -/
def pyStartsWith (s pre : String) : Bool :=
  pre.data.isPrefixOf s.data

/-- Python `s.split('\n')`: split on every newline, keeping empty parts. -/
def splitLinesAux : List Char → List Char → List String
  | [], acc => [String.mk acc.reverse]
  | c :: rest, acc =>
    if c = '\n' then String.mk acc.reverse :: splitLinesAux rest []
    else splitLinesAux rest (c :: acc)

def pySplitLines (s : String) : List String :=
  splitLinesAux s.data []

/-- Substring occurrence on character lists. -/
def containsList : List Char → List Char → Bool
  | hay@(_ :: rest), needle => needle.isPrefixOf hay || containsList rest needle
  | [], needle => needle.isEmpty

/-- Python substring test `needle in hay`. -/
def pyContains (hay needle : String) : Bool :=
  containsList hay.data needle.data

/-! ## JSON values

`json.load` / `json.loads` produce an arbitrary JSON value; the loader's
behaviour depends only on the parsed value, so file content is modelled by
its parse outcome. -/

/-- A parsed JSON value (numbers restricted to integers, which suffices for
every input the claims mention). -/
inductive Json where
  | null
  | bool (b : Bool)
  | num (n : Int)
  | str (s : String)
  | arr (elems : List Json)
  | obj (entries : List (String × Json))

/-- Python `data[k]` / `k in data` lookup on a JSON object (first binding wins,
as in a Python dict there is at most one). -/
def lookupEntry : List (String × Json) → String → Option Json
  | [], _ => none
  | (k', v) :: rest, k => if k' = k then some v else lookupEntry rest k

def Json.get : Json → String → Option Json
  | .obj entries, k => lookupEntry entries k
  | _, _ => none

def Json.hasKey (j : Json) (k : String) : Bool :=
  (j.get k).isSome

/-- Python `data[k] = v` on a dict: replace in place, or append a new binding. -/
def setEntry : List (String × Json) → String → Json → List (String × Json)
  | [], k, v => [(k, v)]
  | (k', v') :: rest, k, v =>
    if k' = k then (k, v) :: rest else (k', v') :: setEntry rest k v

def Json.setKey : Json → String → Json → Json
  | .obj entries, k, v => .obj (setEntry entries k v)
  | j, _, _ => j

/-! ## ConversationManager: loading with repair (`Prometheus.py` 36-106)

The content of the conversation file is abstracted by its parse outcome
(`parsed = none` means `json.load`/`json.loads` raises `JSONDecodeError`)
together with whether the stripped raw content is empty
(`repair_json_file` distinguishes that case before re-parsing).  The
conversation id is derived from the file name and the current time is an
input, so both are parameters. -/

structure FileContent where
  /-- Result of `json.loads` on the raw bytes; `none` = parse error. -/
  parsed : Option Json
  /-- Whether `content.strip()` is empty. -/
  stripBlank : Bool

/-- Embeds `ConversationManager.create_default_conversation` (lines 63-71). -/
def create_default_conversation (convId now : String) : Json :=
  .obj [("id", .str convId), ("title", .str "Conversation réparée"),
        ("messages", .arr []), ("timestamp", .str now)]

/-- Embeds `ConversationManager.repair_json_file` (lines 36-61): empty content or a
parse failure yields a fresh default conversation (the unparsable file is
first renamed to a `.backup_<ts>` name); content that parses is returned
as parsed, whatever its shape. -/
def repair_json_file (fc : FileContent) (convId now : String) : Json :=
  if fc.stripBlank then create_default_conversation convId now
  else
    match fc.parsed with
    | some data => data
    | none => create_default_conversation convId now

/-- One step of the message-cleaning loop in `load_conversation_file`
(lines 94-99): keep a dict element having both `role` and `content`,
stamping `timestamp` with the current time when absent or not a string;
drop anything else. -/
def clean_message (now : String) (m : Json) : Option Json :=
  match m with
  | .obj entries =>
    let j := Json.obj entries
    if j.hasKey "role" && j.hasKey "content" then
      match j.get "timestamp" with
      | some (.str _) => some j
      | _ => some (j.setKey "timestamp" (.str now))
    else none
  | _ => none

/-- The required-field filling loop of `load_conversation_file`
(lines 83-87): a missing field is filled from the default conversation. -/
def fillField (convId now : String) (d : Json) (field : String) : Json :=
  if d.hasKey field then d
  else d.setKey field (((create_default_conversation convId now).get field).getD .null)

/-- Embeds `ConversationManager.load_conversation_file` (lines 73-106).  A parse
failure falls back to `repair_json_file`; a non-dict parsed value likewise
falls back to `repair_json_file` (which re-reads and re-parses the same
content); a dict gets its required fields filled and its `messages`
cleaned (reset to `[]` when not a list). -/
def load_conversation_file (fc : FileContent) (convId now : String) : Json :=
  match fc.parsed with
  | none => repair_json_file fc convId now
  | some (.obj entries) =>
    let d1 := ["id", "title", "messages"].foldl (fillField convId now) (Json.obj entries)
    match d1.get "messages" with
    | some (.arr msgs) => d1.setKey "messages" (.arr (msgs.filterMap (clean_message now)))
    | _ => d1.setKey "messages" (.arr [])
  | some _ => repair_json_file fc convId now

/-- A structurally valid Conversation in the sense of the specification: a
mapping with non-null `id`, non-null `title` and a sequence `messages`. -/
def structurallyValidConversation (j : Json) : Bool :=
  match j with
  | .obj _ =>
    (match j.get "id" with | some .null => false | some _ => true | none => false) &&
    (match j.get "title" with | some .null => false | some _ => true | none => false) &&
    (match j.get "messages" with | some (.arr _) => true | _ => false)
  | _ => false

/-! ## ConversationManager.save_conversation (`Prometheus.py` 108-126)

The save path is a sequence of file-system effects; an interruption (crash
or kill) stops the sequence after an arbitrary prefix.  The state tracks
the destination file and the `.tmp` file next to it. -/

structure DiskState where
  /-- Content of the destination `<id>.json` file, if it exists. -/
  dest : Option String
  /-- Content of the `<id>.json.tmp` file, if it exists. -/
  tmp : Option String
deriving DecidableEq, Repr

inductive SaveStep where
  /-- Write the serialized conversation to the `.tmp` file. -/
  | writeTmp (content : String)
  /-- Step `if os.path.exists(file_path): os.remove(file_path)` (lines 119-120). -/
  | removeDest
  /-- Step `os.rename(temp_path, file_path)` (line 121). -/
  | renameTmp
deriving DecidableEq, Repr

def applyStep (s : DiskState) : SaveStep → DiskState
  | .writeTmp c => { s with tmp := some c }
  | .removeDest => if s.dest.isSome then { s with dest := none } else s
  | .renameTmp => { dest := s.tmp, tmp := none }

/-- The effect sequence performed by `ConversationManager.save_conversation`
on a successful run: temp write, conditional remove of the destination,
rename of the temp file onto the destination. -/
def save_conversation_steps (content : String) : List SaveStep :=
  [.writeTmp content, .removeDest, .renameTmp]

def runSteps (s : DiskState) (steps : List SaveStep) : DiskState :=
  steps.foldl applyStep s

/-! ## StreamRelay messages and the queue consumer (`Prometheus.py` 1778-1815)

`generate_response_streaming` pushes `("stream_token", t)`,
`("stream_end", f)` and `("error", e)` pairs onto `response_queue`;
`check_queue` drains everything available in one tick and then runs its
`finally` block.  The display side effects that matter to the claims are
recorded as an ordered event list: `updated` for
`update_streaming_message`, `finalized` for `finalize_streaming_message`,
`errored` for `display_error_message`. -/

inductive StreamMsg where
  | token (s : String)
  | streamEnd (s : String)
  | error (s : String)
deriving DecidableEq, Repr

inductive UIEvent where
  | updated (text : String)
  | finalized (text : String)
  | errored (text : String)
deriving DecidableEq, Repr

structure UIState where
  /-- Field `self._stream_chunks`. -/
  streamChunks : List String
  /-- Field `self._stream_dirty`. -/
  streamDirty : Bool
  /-- Field `self.streaming_text`. -/
  streamingText : String
  /-- Whether `self.current_ai_message_label` exists (it is created by
  `create_streaming_message` and cleared by `display_ai_message_with_code`). -/
  labelExists : Bool
  /-- Display actions, in order. -/
  events : List UIEvent
deriving DecidableEq, Repr

/-- The flush of pending token text (lines 1789-1793 and 1809-1813):
`streaming_text += "".join(_stream_chunks)`, clear the chunk list and the
dirty bit, then `update_streaming_message` (which re-renders only when the
in-flight label still exists). -/
def flushChunks (s : UIState) : UIState :=
  let newText := s.streamingText ++ s.streamChunks.foldr (· ++ ·) ""
  { s with
    streamChunks := []
    streamDirty := false
    streamingText := newText
    events := s.events ++ if s.labelExists then [.updated newText] else [] }

/-- Processing of one drained queue message inside `check_queue`'s loop
(lines 1784-1804).  On `stream_end` the pending tokens are flushed first
(guarded by the dirty bit), then `finalize_streaming_message` renders the
final text and resets the in-flight state
(`display_ai_message_with_code` ends with `current_ai_message_label = None`
and `streaming_text = ""`).  On `error`, `display_error_message` runs
immediately; no flush happens in that branch. -/
def checkQueueStep (s : UIState) : StreamMsg → UIState
  | .token t =>
    { s with streamChunks := s.streamChunks ++ [t], streamDirty := true }
  | .streamEnd f =>
    let s1 := if s.streamDirty then flushChunks s else s
    { s1 with
      events := s1.events ++ [.finalized f]
      labelExists := false
      streamingText := "" }
  | .error e =>
    { s with events := s.events ++ [.errored e] }

/-- The `finally` block of `check_queue` (lines 1808-1813): flush pending
token text, but only when the in-flight label still exists. -/
def finallyFlush (s : UIState) : UIState :=
  if s.streamDirty && s.labelExists then flushChunks s else s

/-- One tick of `check_queue`: drain all currently queued messages in
order, then run the `finally` flush. -/
def check_queue_tick (msgs : List StreamMsg) (s : UIState) : UIState :=
  finallyFlush (msgs.foldl checkQueueStep s)

/-- Consumer state at the start of a fresh in-flight message
(`create_streaming_message` has just run, nothing pending). -/
def initUIState : UIState :=
  { streamChunks := [], streamDirty := false, streamingText := ""
    labelExists := true, events := [] }

/-! ## Model chunks and token extraction (`Prometheus.py` 961-977)

A chunk produced by the model's streaming call is duck-typed: a mapping
with a `"choices"` entry, or an object with a `choices` attribute; the
first element of `choices` is itself a mapping with a `"text"` entry or an
object with a `text` attribute.  `Option (Option String)` models
"key/attribute present?" (outer) and "value is `None` or a string"
(inner). -/

inductive ChoiceElem where
  /-- A dict element; `text` is the `"text"` entry if present. -/
  | mapElem (text : Option (Option String))
  /-- An attribute-style object element; `text` is the `text` attribute if present. -/
  | objElem (text : Option (Option String))
  /-- Any other value. -/
  | otherElem
deriving DecidableEq, Repr

inductive Chunk where
  /-- A dict chunk; `none` models `"choices"` absent or bound to `None`. -/
  | mapChunk (choices : Option (List ChoiceElem))
  /-- An attribute-style chunk; `none` models no `choices` attribute or `choices = None`. -/
  | objChunk (choices : Option (List ChoiceElem))
  /-- Any other value. -/
  | otherChunk
deriving DecidableEq, Repr

/-- Python `x.get("text", "") or ""` / `c0.text or ""`: a missing entry, a
`None` value and the empty string all collapse to `""`. -/
def textOrEmpty : Option (Option String) → String
  | some (some s) => s
  | _ => ""

/-- The token-extraction step of `generate_response_streaming`
(lines 961-973).  A dict chunk reads `chunk.get("choices") or []` and
extracts only when `choices[0]` is itself a dict; an attribute chunk
requires `chunk.choices` truthy (non-empty) and handles both a dict and an
attribute-style first element; everything else leaves `token = ""`. -/
def extract_chunk_token : Chunk → String
  | .mapChunk choices =>
    match choices with
    | some (ChoiceElem.mapElem t :: _) => textOrEmpty t
    | _ => ""
  | .objChunk choices =>
    match choices with
    | some (c0 :: _) =>
      match c0 with
      | .mapElem t => textOrEmpty t
      | .objElem t => textOrEmpty t
      | .otherElem => ""
    | _ => ""
  | .otherChunk => ""

/-! ## Conversation messages and the prompt builder (`Prometheus.py` 895-919)

In-memory conversation entries are dicts with `role`, `content` and
`timestamp` keys, modelled as records. -/

structure PyMsg where
  role : String
  content : String
  timestamp : String
deriving DecidableEq, Repr

/-- The programming-keyword test of `build_prompt` (line 915). -/
def hasCodeKeywordPrompt (userMessage : String) : Bool :=
  ["python", "code", "programme", "script", "def ", "import "].any
    (fun k => pyContains (pyLower userMessage) k)

/-- The rendering of one history message inside `build_prompt`
(lines 908-910). -/
def renderHistoryLine (m : PyMsg) : String :=
  (if m.role = "user" then "Utilisateur" else "Assistant") ++ ": " ++ m.content ++ "\n"

/-- The code-only instruction appended by `build_prompt` (line 916). -/
def codeOnlyInstruction : String :=
  "Instructions: Fournis UNIQUEMENT le code Python complet entre ```python et ```. Pas d'explications, pas de texte avant ou après."

/-- The fixed template `build_prompt` returns when the conversation history
is empty (lines 897-902). -/
def emptyHistoryPrompt (userMessage : String) : String :=
  "Tu es Prometheus AI, un assistant IA local spécialisé en programmation.\n" ++
    "L'utilisateur dit: \"" ++ userMessage ++ "\"\n\n" ++
    "Si l'utilisateur demande du code Python, réponds UNIQUEMENT avec:\n" ++
    "```python\n[code complet et fonctionnel]\n```\n" ++
    "Ne donne pas d'explications, ne dis pas \"Voici le code\", montre directement le code."

/-- Embeds `PrometheusAI.build_prompt` (lines 895-919): an empty history returns a
fixed standalone template; otherwise the prompt is accumulated from the
history header, the last 6 messages, the new user message, the conditional
code-only instruction, and a trailing role cue. -/
def build_prompt (userMessage : String) (conv : List PyMsg) : String :=
  if conv = [] then emptyHistoryPrompt userMessage
  else
    let recent := conv.drop (conv.length - 6)
    let prompt := recent.foldl (fun acc m => acc ++ renderHistoryLine m)
      "Historique de la conversation:\n"
    let prompt := prompt ++ "\nUtilisateur: " ++ userMessage ++ "\n\n"
    let prompt := if hasCodeKeywordPrompt userMessage then prompt ++ codeOnlyInstruction
      else prompt
    prompt ++ "Assistant:"

/-- The prompt shape asserted by the specification, assembled from its
listed parts: the fixed preamble, the last 6 history messages rendered as
"Role: content" lines, the new user message, and the code-only
instruction appended exactly when the message contains a programming
keyword (with the model's role cue closing the prompt).  This definition
follows the specification's words; `build_prompt` above follows the
source. -/
def specPromptShape (userMessage : String) (conv : List PyMsg) : String :=
  "Historique de la conversation:\n" ++
    ((conv.drop (conv.length - 6)).map renderHistoryLine).foldr (· ++ ·) "" ++
    "\nUtilisateur: " ++ userMessage ++ "\n\n" ++
    (if hasCodeKeywordPrompt userMessage then codeOnlyInstruction else "") ++
    "Assistant:"

/-! ## Response post-processing (`Prometheus.py` 1013-1438) -/

/-- The language-indicator substrings of `looks_like_python_code`
(lines 1407-1412). -/
def pythonIndicators : List String :=
  ["import ", "def ", "class ", "print(", "return ", "if __name__",
   "from ", "as ", "try:", "except ", "finally:", "with ", "lambda ",
   "for ", "while ", "if ", "elif ", "else:", "and ", "or ", "not ",
   "True", "False", "None", "self.", "super()"]

/-- The weighted score of `looks_like_python_code`, counted in half-points
(an indicator line scores 1.0, a non-trivial non-comment line 0.5; Python's
float additions by 0.5 are exact, so half-points are faithful). -/
def codeLineScore (line : String) : Nat :=
  let lineClean := pyStrip line
  if pythonIndicators.any (fun ind => pyContains lineClean ind) then 2
  else if lineClean ≠ "" && !pyStartsWith lineClean "#" && lineClean.length > 3 then 1
  else 0

/-- Embeds `PrometheusAI.looks_like_python_code` (lines 1405-1426): at least two
lines, and a weighted line count reaching 2 (i.e. 4 half-points). -/
def looks_like_python_code (text : String) : Bool :=
  let lines := pySplitLines (pyStrip text)
  if lines.length < 2 then false
  else decide (4 ≤ (lines.map codeLineScore).sum)

/-- Index of the first occurrence of `pat` in `l`, if any. -/
def findSub (pat : List Char) : List Char → Option Nat
  | [] => if pat.isEmpty then some 0 else none
  | c :: rest =>
    if pat.isPrefixOf (c :: rest) then some 0
    else (findSub pat rest).map (· + 1)

/-- Python slice `s[a:b]` (character indices, like Python's). -/
def pySlice (cs : List Char) (a b : Nat) : String :=
  String.mk ((cs.drop a).take (b - a))

/-- The first match group of `re.findall(r'```python\s*(.*?)\s*```', response, re.DOTALL)`
(lines 1021-1023): the text strictly between the end of the first
`\x60\x60\x60python` and the next `\x60\x60\x60` after it (the surrounding `\s*` only moves
whitespace between the group and the delimiters, and the caller strips the
group anyway). `none` when no closing fence follows. -/
def firstPythonBlock (response : String) : Option String :=
  let cs := response.data
  match findSub "```python".data cs with
  | none => none
  | some i =>
    match findSub "```".data (cs.drop (i + 9)) with
    | none => none
    | some j => some (pySlice cs (i + 9) (i + 9 + j))

/-- The keyword test of `format_code_response` (line 1017); note the list
differs from the one in `build_prompt`. -/
def hasCodeKeywordFormat (userMessage : String) : Bool :=
  ["python", "code", "programme", "script", "statistique", "statistiques"].any
    (fun k => pyContains (pyLower userMessage) k)

/-- Embeds `PrometheusAI.generate_statistics_code` (lines 1037-1389): a fixed
fenced Python snippet, independent of the user message (the literal is not
an f-string). -/
def generate_statistics_code (_userMessage : String) : String :=
  "```python\nimport numpy as np\nimport pandas as pd\nimport matplotlib.pyplot as plt\nimport seaborn as sns\nfrom scipy import stats\nimport warnings\nwarnings.filterwarnings('ignore')\n\n# =============================================\n# PROGRAMME COMPLET POUR LES STATISTIQUES AVANCÉES\n# =============================================\n\nclass AnalyseStatistiques:\n    '''Classe pour effectuer des analyses statistiques complètes'''\n    \n    def __init__(self, data=None, fichier=None):\n        '''\n        Initialise l'analyse statistique\n        \n        Parameters:\n        -----------\n        data : DataFrame ou dict, optionnel\n            Données à analyser\n        fichier : str, optionnel\n            Chemin vers un fichier CSV, Excel ou JSON\n        '''\n        if fichier:\n            self.charger_donnees(fichier)\n        elif data is not None:\n            if isinstance(data, pd.DataFrame):\n                self.data = data\n            else:\n                self.data = pd.DataFrame(data)\n        else:\n            self.data = pd.DataFrame()\n            \n        self.resultats = \x7b\x7d\n    \n    def charger_donnees(self, fichier):\n        '''Charge les données depuis un fichier'''\n        extension = fichier.split('.')[-1].lower()\n        \n        try:\n            if extension == 'csv':\n                self.data = pd.read_csv(fichier)\n            elif extension in ['xls', 'xlsx']:\n                self.data = pd.read_excel(fichier)\n            elif extension == 'json':\n                self.data = pd.read_json(fichier)\n            else:\n                raise ValueError(f\"Format non supporté: \x7bextension\x7d\")\n                \n            print(f\"✅ Données chargées: \x7bself.data.shape[0]\x7d lignes, \x7bself.data.shape[1]\x7d colonnes\")\n        except Exception as e:\n            print(f\"❌ Erreur de chargement: \x7be\x7d\")\n            self.data = pd.DataFrame()\n    \n    def resume_complet(self):\n        '''Génère un résumé complet des données'''\n        if self.data.empty:\n            print(\"❌ Aucune donnée à analyser\")\n            return\n        \n        print(\"=\" * 60)\n        print(\"📊 RÉSUMÉ COMPLET DES DONNÉES\")\n        print(\"=\" * 60)\n        \n        # Informations basiques\n        print(f\"\\n📋 Dimensions: \x7bself.data.shape[0]\x7d lignes × \x7bself.data.shape[1]\x7d colonnes\")\n        print(f\"📅 Période: \x7bself.data.index.min()\x7d à \x7bself.data.index.max()\x7d\" \n              if hasattr(self.data.index, 'min') else \"📅 Période: Non spécifiée\")\n        \n        # Types de données\n        print(\"\\n🎯 TYPES DE DONNÉES:\")\n        print(self.data.dtypes)\n        \n        # Statistiques descriptives\n        print(\"\\n📈 STATISTIQUES DESCRIPTIVES:\")\n        print(self.data.describe(include='all'))\n        \n        # Valeurs manquantes\n        valeurs_manquantes = self.data.isnull().sum()\n        if valeurs_manquantes.any():\n            print(f\"\\n⚠️  VALEURS MANQUANTES:\")\n            for col, nb in valeurs_manquantes[valeurs_manquantes > 0].items():\n                pourcentage = (nb / len(self.data)) * 100\n                print(f\"  \x7bcol\x7d: \x7bnb\x7d valeurs (\x7bpourcentage:.1f\x7d%)\")\n        \n        # Valeurs uniques\n        print(\"\\n🔍 VALEURS UNIQUES (top 5 par colonne):\")\n        for col in self.data.columns:\n            if self.data[col].dtype == 'object' or self.data[col].nunique() < 10:\n                uniques = self.data[col].unique()[:5]\n                print(f\"  \x7bcol\x7d: \x7blen(uniques)\x7d valeurs uniques → \x7buniques\x7d\")\n    \n    def analyse_exploratoire(self):\n        '''Effectue une analyse exploratoire des données'''\n        if self.data.empty:\n            return\n        \n        print(\"\\n\" + \"=\" * 60)\n        print(\"🔎 ANALYSE EXPLORATOIRE\")\n        print(\"=\" * 60)\n        \n        # Corrélations\n        if len(self.data.select_dtypes(include=[np.number]).columns) > 1:\n            correlations = self.data.corr(numeric_only=True)\n            print(\"\\n📊 MATRICE DE CORRÉLATION:\")\n            print(correlations)\n            \n            # Corrélations fortes\n            strong_corr = []\n            for i in range(len(correlations.columns)):\n                for j in range(i+1, len(correlations.columns)):\n                    if abs(correlations.iloc[i, j]) > 0.7:\n                        strong_corr.append((\n                            correlations.columns[i],\n                            correlations.columns[j],\n                            correlations.iloc[i, j]\n                        ))\n            \n            if strong_corr:\n                print(\"\\n🔗 CORRÉLATIONS FORTES (|r| > 0.7):\")\n                for var1, var2, corr in strong_corr:\n                    print(f\"  \x7bvar1\x7d ↔ \x7bvar2\x7d: \x7bcorr:.3f\x7d\")\n        \n        # Distributions\n        print(\"\\n📏 DISTRIBUTIONS:\")\n        numeric_cols = self.data.select_dtypes(include=[np.number]).columns\n        for col in numeric_cols[:5]:  # Limite aux 5 premières colonnes\n            skewness = self.data[col].skew()\n            kurtosis = self.data[col].kurtosis()\n            \n            distribution_type = \"Normale\"\n            if abs(skewness) > 1:\n                distribution_type = \"Asymétrique\"\n            if abs(kurtosis) > 3:\n                distribution_type += \" à queue épaisse\"\n            \n            print(f\"  \x7bcol\x7d: Skewness=\x7bskewness:.2f\x7d, Kurtosis=\x7bkurtosis:.2f\x7d → \x7bdistribution_type\x7d\")\n    \n    def tests_statistiques(self):\n        '''Effectue des tests statistiques'''\n        if self.data.empty:\n            return\n        \n        numeric_cols = self.data.select_dtypes(include=[np.number]).columns.tolist()\n        \n        if len(numeric_cols) >= 2:\n            print(\"\\n\" + \"=\" * 60)\n            print(\"🧪 TESTS STATISTIQUES\")\n            print(\"=\" * 60)\n            \n            # Test de normalité (Shapiro-Wilk)\n            print(\"\\n📊 TEST DE NORMALITÉ (Shapiro-Wilk):\")\n            for col in numeric_cols[:3]:  # Limite aux 3 premières colonnes\n                data_clean = self.data[col].dropna()\n                if len(data_clean) >= 3 and len(data_clean) <= 5000:\n                    stat, p_value = stats.shapiro(data_clean)\n                    normal = \"Normal\" if p_value > 0.05 else \"Non-normal\"\n                    print(f\"  \x7bcol\x7d: W=\x7bstat:.3f\x7d, p=\x7bp_value:.3e\x7d → \x7bnormal\x7d\")\n            \n            # Test T pour échantillons indépendants\n            if len(numeric_cols) >= 2:\n                print(\"\\n📈 TEST T (échantillons indépendants):\")\n                col1, col2 = numeric_cols[0], numeric_cols[1]\n                t_stat, p_value = stats.ttest_ind(\n                    self.data[col1].dropna(),\n                    self.data[col2].dropna(),\n                    nan_policy='omit'\n                )\n                difference = \"Différence significative\" if p_value < 0.05 else \"Pas de différence significative\"\n                print(f\"  \x7bcol1\x7d vs \x7bcol2\x7d: t=\x7bt_stat:.3f\x7d, p=\x7bp_value:.3e\x7d → \x7bdifference\x7d\")\n    \n    def visualisations(self, save=False):\n        '''Génère des visualisations'''\n        if self.data.empty:\n            return\n        \n        numeric_cols = self.data.select_dtypes(include=[np.number]).columns.tolist()\n        categoric_cols = self.data.select_dtypes(include=['object', 'category']).columns.tolist()\n        \n        print(\"\\n\" + \"=\" * 60)\n        print(\"🎨 GÉNÉRATION DE VISUALISATIONS\")\n        print(\"=\" * 60)\n        \n        # Configuration du style\n        plt.style.use('seaborn-v0_8-darkgrid')\n        sns.set_palette(\"husl\")\n        \n        # 1. Histogrammes\n        if numeric_cols:\n            fig, axes = plt.subplots(1, min(3, len(numeric_cols)), figsize=(15, 4))\n            axes = axes if isinstance(axes, np.ndarray) else [axes]\n            \n            for idx, col in enumerate(numeric_cols[:3]):\n                ax = axes[idx]\n                self.data[col].hist(ax=ax, bins=30, edgecolor='black')\n                ax.set_title(f'Distribution de \x7bcol\x7d')\n                ax.set_xlabel(col)\n                ax.set_ylabel('Fréquence')\n            \n            plt.tight_layout()\n            if save:\n                plt.savefig('histogrammes.png', dpi=300, bbox_inches='tight')\n            plt.show()\n        \n        # 2. Boxplots\n        if numeric_cols:\n            fig, axes = plt.subplots(1, min(3, len(numeric_cols)), figsize=(15, 4))\n            axes = axes if isinstance(axes, np.ndarray) else [axes]\n            \n            for idx, col in enumerate(numeric_cols[:3]):\n                ax = axes[idx]\n                ax.boxplot(self.data[col].dropna())\n                ax.set_title(f'Boxplot de \x7bcol\x7d')\n                ax.set_ylabel(col)\n            \n            plt.tight_layout()\n            if save:\n                plt.savefig('boxplots.png', dpi=300, bbox_inches='tight')\n            plt.show()\n        \n        # 3. Matrice de corrélation (heatmap)\n        if len(numeric_cols) > 1:\n            corr_matrix = self.data[numeric_cols].corr()\n            \n            plt.figure(figsize=(10, 8))\n            sns.heatmap(corr_matrix, annot=True, cmap='coolwarm', center=0,\n                       square=True, linewidths=1, cbar_kws=\x7b\"shrink\": 0.8\x7d)\n            plt.title('Matrice de Corrélation', fontsize=16, pad=20)\n            plt.tight_layout()\n            if save:\n                plt.savefig('correlation_heatmap.png', dpi=300, bbox_inches='tight')\n            plt.show()\n        \n        # 4. Scatter plot si au moins 2 variables numériques\n        if len(numeric_cols) >= 2:\n            plt.figure(figsize=(10, 6))\n            plt.scatter(self.data[numeric_cols[0]], self.data[numeric_cols[1]],\n                       alpha=0.6, edgecolors='w', s=50)\n            \n            # Régression linéaire\n            x = self.data[numeric_cols[0]].dropna()\n            y = self.data[numeric_cols[1]].dropna()\n            if len(x) == len(y) and len(x) > 1:\n                slope, intercept, r_value, p_value, std_err = stats.linregress(x, y)\n                plt.plot(x, intercept + slope*x, 'r-', linewidth=2,\n                        label=f'Régression: r=\x7br_value:.3f\x7d, p=\x7bp_value:.3e\x7d')\n                plt.legend()\n            \n            plt.xlabel(numeric_cols[0])\n            plt.ylabel(numeric_cols[1])\n            plt.title(f'Relation entre \x7bnumeric_cols[0]\x7d et \x7bnumeric_cols[1]\x7d', fontsize=14)\n            plt.grid(True, alpha=0.3)\n            \n            if save:\n                plt.savefig('scatter_plot.png', dpi=300, bbox_inches='tight')\n            plt.show()\n    \n    def rapport_complet(self, fichier_sortie='rapport_statistiques.txt'):\n        '''Génère un rapport complet des analyses'''\n        import io\n        \n        # Capture de la sortie\n        old_stdout = sys.stdout\n        sys.stdout = buffer = io.StringIO()\n        \n        try:\n            # Exécute toutes les analyses\n            self.resume_complet()\n            self.analyse_exploratoire()\n            self.tests_statistiques()\n            \n            # Sauvegarde le rapport\n            with open(fichier_sortie, 'w', encoding='utf-8') as f:\n                f.write(buffer.getvalue())\n            \n            print(f\"\\n✅ Rapport sauvegardé dans: \x7bfichier_sortie\x7d\")\n            \n        finally:\n            sys.stdout = old_stdout\n        \n        # Affiche le rapport\n        print(buffer.getvalue())\n\n# =============================================\n# EXEMPLE D'UTILISATION\n# =============================================\nif __name__ == \"__main__\":\n    print(\"=\" * 60)\n    print(\"📊 ANALYSE STATISTIQUE AVANCÉE - PROMETHEUS AI\")\n    print(\"=\" * 60)\n    \n    # Option 1: Données d'exemple\n    donnees_exemple = \x7b\n        'Age': [25, 30, 35, 40, 45, 50, 55, 60, 65, 70],\n        'Salaire': [30000, 35000, 40000, 45000, 50000, 55000, 60000, 65000, 70000, 75000],\n        'Experience': [1, 3, 5, 7, 9, 11, 13, 15, 17, 19],\n        'Genre': ['M', 'F', 'M', 'F', 'M', 'F', 'M', 'F', 'M', 'F'],\n        'Satisfaction': [3, 4, 5, 4, 3, 5, 4, 3, 5, 4]\n    \x7d\n    \n    # Option 2: Charger depuis un fichier\n    # analyse = AnalyseStatistiques(fichier='donnees.csv')\n    \n    # Création de l'analyseur\n    analyse = AnalyseStatistiques(data=donnees_exemple)\n    \n    # Exécution des analyses\n    analyse.rapport_complet()\n    \n    # Génération des visualisations\n    print(\"\\n🎨 Génération des graphiques...\")\n    analyse.visualisations(save=True)\n    \n    print(\"\\n\" + \"=\" * 60)\n    print(\"✅ ANALYSE TERMINÉE AVEC SUCCÈS!\")\n    print(\"=\" * 60)\n    \n    # Suggestions d'analyses supplémentaires\n    print(\"\\n💡 SUGGESTIONS D'ANALYSES SUPPLÉMENTAIRES:\")\n    print(\"  1. Analyse de variance (ANOVA)\")\n    print(\"  2. Régression linéaire multiple\")\n    print(\"  3. Analyse en composantes principales (PCA)\")\n    print(\"  4. Clustering (K-means, DBSCAN)\")\n    print(\"  5. Séries temporelles (ARIMA, Prophet)\")\n    \n    # Commandes pour installer les dépendances manquantes\n    print(\"\\n📦 INSTALLATION DES DÉPENDANCES:\")\n    print(\"  pip install numpy pandas matplotlib seaborn scipy scikit-learn\")\n    \n    print(\"\\n\" + \"=\" * 60)\n    print(\"🔧 FONCTIONNALITÉS IMPLÉMENTÉES:\")\n    print(\"  • Chargement de données (CSV, Excel, JSON)\")\n    print(\"  • Analyse descriptive complète\")\n    print(\"  • Tests statistiques (normalité, test-t)\")\n    print(\"  • Visualisations (histogrammes, boxplots, scatter plots)\")\n    print(\"  • Génération de rapport automatique\")\n    print(\"  • Gestion des valeurs manquantes\")\n    print(\"  • Détection des corrélations\")\n    print(\"=\" * 60)\n```"

/-- Embeds `PrometheusAI.format_code_response` (lines 1013-1035). -/
def format_code_response (response userMessage : String) : String :=
  let response := pyStrip response
  if hasCodeKeywordFormat userMessage then
    if pyContains response "```python" then
      match firstPythonBlock response with
      | some code => "```python\n" ++ pyStrip code ++ "\n```"
      | none => response
    else if looks_like_python_code response then
      "```python\n" ++ response ++ "\n```"
    else
      generate_statistics_code userMessage
  else response

/-- Embeds `PrometheusAI.is_duplicate_response` (lines 1428-1438): compare against
the content of the last assistant message, stripped and lowercased. -/
def is_duplicate_response (conv : List PyMsg) (newResponse : String) : Bool :=
  match (conv.filter (fun m => m.role == "assistant")).getLast? with
  | none => false
  | some m => pyLower (pyStrip m.content) == pyLower (pyStrip newResponse)

/-! ## The streaming generator (`Prometheus.py` 921-1011)

`generate_response_streaming` runs on the background thread.  Its
observable effects are the messages pushed onto `response_queue`, the
mutation of `current_conversation`, and the snapshots passed to
`save_conversation`.  The cooperative cancel flag is modelled by the check
index from which `stop_generation_flag` reads true: the loop checks the
flag once at the top of each chunk iteration (check index = iteration
index), and the post-loop `if not self.stop_generation_flag` check happens
after all loop checks (check index = number of chunks when the loop was
not broken). -/

/-- The image-generation keyword test (line 929). -/
def isImageRequest (userMessage : String) : Bool :=
  ["génère une image", "crée une image", "générer image", "stable diffusion", "dall-e"].any
    (fun k => pyContains (pyLower userMessage) k)

/-- The fixed image-generation disclaimer assembled on lines 931-937. -/
def imageDisclaimer : String :=
  "🎨 **Génération d'images**\n\n❌ **IMPORTANT**: Llama.cpp est un modèle de TEXTE uniquement. Il ne peut PAS générer d'images.\n\n**Pour générer des images, vous avez besoin d'un autre logiciel:**\n1. **Stable Diffusion** (local, gratuit mais 10-20Go)\n2. **DALL-E API** (OpenAI, payant)\n3. **Midjourney** (via Discord, payant)\n\nJe peux vous donner du code Python pour utiliser ces services, mais je ne peux pas générer d'images moi-même."

/-- The error text pushed on cancellation (line 958). -/
def stopErrorText : String :=
  "Génération arrêtée par l'utilisateur"

/-- The streaming loop of `generate_response_streaming` (lines 955-977):
at the top of each iteration the cancel flag is read (`cancelIn` counts
the checks remaining until the flag first reads true); if set, one
`error` message is pushed and the loop breaks; otherwise the chunk's
token is extracted and, when non-empty, accumulated and pushed.  Returns
the pushed messages, the accumulated `full_response`, and whether the
loop broke. -/
def streamLoop : List Chunk → Nat → List StreamMsg × String × Bool
  | [], _ => ([], "", false)
  | _ :: _, 0 => ([.error stopErrorText], "", true)
  | c :: rest, cancelIn + 1 =>
    let t := extract_chunk_token c
    let (ms, fr, b) := streamLoop rest cancelIn
    if t = "" then (ms, fr, b) else (.token t :: ms, t ++ fr, b)

/-- Result of one run of `generate_response_streaming`. -/
structure GenRun where
  /-- Whether `self.model.create_completion` was invoked. -/
  modelCalled : Bool
  /-- Messages pushed onto `response_queue`, in order. -/
  emitted : List StreamMsg
  /-- Field `self.current_conversation` after the run. -/
  conv : List PyMsg
  /-- Snapshots persisted via `save_conversation`, in order. -/
  saves : List (List PyMsg)
  /-- Whether any check of `stop_generation_flag` read true. -/
  observedCancel : Bool
deriving Repr

/-- Embeds `PrometheusAI.generate_response_streaming` (lines 921-1011).  `conv` is
the current conversation, `chunks` the sequence the model's streaming call
would yield, `cancelAt` the check index from which the cancel flag reads
true (any value greater than `chunks.length` means it is never set during
the run), and `now` the timestamp used for an appended message. -/
def generate_response_streaming (conv : List PyMsg) (userMessage : String)
    (chunks : List Chunk) (cancelAt : Nat) (now : String) : GenRun :=
  if isImageRequest userMessage then
    { modelCalled := false, emitted := [.streamEnd imageDisclaimer], conv := conv
      saves := [], observedCancel := false }
  else
    let (loopMsgs, fullResponse, _broke) := streamLoop chunks cancelAt
    if cancelAt ≤ chunks.length then
      -- the flag was observed set, either at a loop check (break, error
      -- already pushed) or at the post-loop check (lines 979-1001 skipped)
      { modelCalled := true, emitted := loopMsgs, conv := conv
        saves := [], observedCancel := true }
    else
      let aiResponse := format_code_response (pyStrip fullResponse) userMessage
      if aiResponse ≠ "" && !is_duplicate_response conv aiResponse then
        let conv2 := conv ++ [{ role := "assistant", content := aiResponse, timestamp := now }]
        { modelCalled := true, emitted := loopMsgs ++ [.streamEnd aiResponse], conv := conv2
          saves := [conv2], observedCancel := false }
      else
        let defaultCode := generate_statistics_code userMessage
        let conv2 := conv ++ [{ role := "assistant", content := defaultCode, timestamp := now }]
        { modelCalled := true, emitted := loopMsgs ++ [.streamEnd defaultCode], conv := conv2
          saves := [conv2], observedCancel := false }

/-- The `token` messages a chunk list contributes to the queue (one per
chunk with a non-empty extracted token, in order). -/
def emitTokens (chunks : List Chunk) : List StreamMsg :=
  chunks.filterMap (fun c =>
    let t := extract_chunk_token c
    if t = "" then none else some (.token t))

/-- The `full_response` accumulated over a fully consumed chunk list. -/
def tokenConcat (chunks : List Chunk) : String :=
  (chunks.map extract_chunk_token).foldr (· ++ ·) ""

/-- The assistant content appended and persisted by the normal completion
path (lines 979-1001): the formatted response unless it is empty or a
duplicate, in which case the synthesized fallback snippet. -/
def finalizedContent (conv : List PyMsg) (userMessage : String) (chunks : List Chunk) : String :=
  let aiResponse := format_code_response (pyStrip (tokenConcat chunks)) userMessage
  if aiResponse ≠ "" && !is_duplicate_response conv aiResponse then aiResponse
  else generate_statistics_code userMessage

/-! ## Code-block segmentation for display (`Prometheus.py` 2134-2252)

`extract_code_blocks` runs `re.finditer` with the pattern
"triple backtick, `(\w+)?`, `\s*\n`, lazy `(.*?)`, triple backtick" under
`re.DOTALL`.  The scanner below implements exactly the semantics of that
pattern under `finditer`: starting from the current position, the
leftmost opening fence from which the whole pattern matches is found; the
optional `\w+` is the maximal word run after the fence; `\s*\n` consumes
the following whitespace run up to and including its last newline (greedy
`\s*` with backtracking); the lazy group ends at the first closing fence
after that; scanning resumes at the end of the match, and an opening
fence from which no match is possible is skipped by advancing one
character. -/

/-- Python regex `\w` (ASCII fragment). -/
def isWordChar (c : Char) : Bool :=
  c.isAlphanum || c == '_'

/-- Index (within `l`) of the last newline character, if any. -/
def lastNewlineIdx : List Char → Option Nat
  | [] => none
  | c :: rest =>
    match lastNewlineIdx rest with
    | some k => some (k + 1)
    | none => if c == '\n' then some 0 else none

/-- One `finditer` match: character span `[start, stop)` of the whole
match, the language group (empty when absent) and the raw inner group. -/
structure CodeMatch where
  start : Nat
  stop : Nat
  lang : String
  inner : List Char
deriving DecidableEq, Repr

/-- Attempt to match the pattern's tail against `t`, the text following an
opening fence.  Returns the number of characters consumed, the language
group and the inner group. -/
def tryMatchFence (t : List Char) : Option (Nat × String × List Char) :=
  let w := t.takeWhile isWordChar
  let t1 := t.drop w.length
  let run := t1.takeWhile isPySpace
  match lastNewlineIdx run with
  | none => none
  | some k =>
    let body := t1.drop (k + 1)
    match findSub "```".data body with
    | none => none
    | some c => some (w.length + (k + 1) + c + 3, String.mk w, body.take c)

/-- The `finditer` scan over `cs`, starting at position `i` with enough
fuel; each produced match starts at or after `i` and scanning resumes at
its end. -/
def scanFences (cs : List Char) : Nat → Nat → List CodeMatch
  | _, 0 => []
  | i, fuel + 1 =>
    match findSub "```".data (cs.drop i) with
    | none => []
    | some d =>
      match tryMatchFence (cs.drop (i + d + 3)) with
      | some (consumed, lang, inner) =>
        { start := i + d, stop := i + d + 3 + consumed, lang := lang, inner := inner } ::
          scanFences cs (i + d + 3 + consumed) fuel
      | none => scanFences cs (i + d + 1) fuel

/-- One entry of the list built by `extract_code_blocks` (lines 2241-2246):
`(code, lang, start, end)` with the inner group stripped and the missing
language group defaulted to `"text"`. -/
structure CodeBlock where
  code : String
  lang : String
  start : Nat
  stop : Nat
deriving DecidableEq, Repr

def CodeMatch.toBlock (m : CodeMatch) : CodeBlock :=
  { code := pyStrip (String.mk m.inner)
    lang := if m.lang = "" then "text" else m.lang
    start := m.start
    stop := m.stop }

/-- Embeds `PrometheusAI.extract_code_blocks` (lines 2235-2252): the `finditer`
matches, or — when there is none and the text heuristically looks like
Python — one whole-text block. -/
def extract_code_blocks (text : String) : List CodeBlock :=
  let blocks := (scanFences text.data 0 (text.data.length + 1)).map CodeMatch.toBlock
  if blocks.isEmpty && looks_like_python_code text then
    [{ code := pyStrip text, lang := "python", start := 0, stop := text.data.length }]
  else blocks

/-- A display segment produced by `display_ai_message_with_code`: `raw` is
the span of the original message the segment accounts for; for a code
segment, `display` and `lang` are what the code widget shows. -/
inductive Segment where
  | prose (raw : String)
  | code (raw : String) (display : String) (lang : String)
deriving DecidableEq, Repr

def Segment.raw : Segment → String
  | .prose r => r
  | .code r _ _ => r

/-- The `current_pos` walk of `display_ai_message_with_code`
(lines 2153-2205): the prose gap before each block (when non-empty as a
span), the block itself, then the tail after the last block. -/
def segmentWalk (cs : List Char) : List CodeBlock → Nat → List Segment
  | [], pos =>
    if pos < cs.length then [.prose (pySlice cs pos cs.length)] else []
  | b :: rest, pos =>
    (if b.start > pos then [Segment.prose (pySlice cs pos b.start)] else []) ++
      Segment.code (pySlice cs b.start b.stop) b.code b.lang :: segmentWalk cs rest b.stop

/-- The prose/code segmentation performed by `display_ai_message_with_code`
(lines 2134-2217): with no detected blocks the whole message is a single
prose segment; otherwise the `current_pos` walk over the blocks. -/
def display_segments (text : String) : List Segment :=
  let blocks := extract_code_blocks text
  if blocks.isEmpty then [.prose text]
  else segmentWalk text.data blocks 0

/-- Concatenation of the raw spans of a segment list. -/
def segConcat (segs : List Segment) : String :=
  (segs.map Segment.raw).foldr (· ++ ·) ""

/-- Well-formedness of a block list relative to a text of length `len`:
the spans start at or after `lo`, are ordered, non-overlapping and within
bounds.  `finditer` guarantees this shape for its match list. -/
def ChainedB (len : Nat) : Nat → List CodeBlock → Prop
  | _, [] => True
  | lo, b :: rest => lo ≤ b.start ∧ b.start ≤ b.stop ∧ b.stop ≤ len ∧ ChainedB len b.stop rest

/-- A llama-cpp-shaped sample chunk: a dict with a `"choices"` list whose
first element is a dict with a `"text"` entry. -/
def sampleChunk (s : String) : Chunk :=
  .mapChunk (some [.mapElem (some (some s))])

/-! ## Theorems -/

theorem str_empty_append (s : String) : "" ++ s = s := rfl

theorem str_append_empty (s : String) : s ++ "" = s := by
  cases s with
  | mk data => show String.mk (data ++ []) = String.mk data; rw [List.append_nil]

theorem str_append_assoc (a b c : String) : a ++ b ++ c = a ++ (b ++ c) := by
  cases a; cases b; cases c
  show String.mk _ = String.mk _
  rw [List.append_assoc]

/-- Claim C1 (code bug witness): feeding `load_conversation_file` the file
content `"[1, 2, 3]"` — a byte string that parses as valid JSON but is not
a mapping — returns the parsed array itself, not a structurally valid
Conversation: `repair_json_file` re-parses the content successfully and
returns it unrepaired.  This contradicts the claim that every byte string
maps to a mapping with non-null `id`, non-null `title` and a sequence
`messages`. -/
theorem load_conversation_file_on_valid_nonmapping_json :
    load_conversation_file ⟨some (.arr [.num 1, .num 2, .num 3]), false⟩
        "conv_1700000000" "2024-01-01T00:00:00" =
      Json.arr [.num 1, .num 2, .num 3] ∧
    structurallyValidConversation
      (load_conversation_file ⟨some (.arr [.num 1, .num 2, .num 3]), false⟩
        "conv_1700000000" "2024-01-01T00:00:00") = false :=
  ⟨rfl, rfl⟩

/-- Claim C2 (code bug witness): `save_conversation` removes the existing
destination before renaming the temp file onto it (remove-then-rename,
lines 119-121), so an execution interrupted after the remove and before
the rename leaves a previously existing destination missing — neither the
old nor the new content is observable, contradicting the claimed
atomicity. -/
theorem save_conversation_interruption_leaves_destination_missing :
    (⟨some "old", none⟩ : DiskState).dest = some "old" ∧
    runSteps ⟨some "old", none⟩ ((save_conversation_steps "new").take 2) =
      ⟨none, some "new"⟩ :=
  ⟨rfl, rfl⟩

/-- Claim C3 (counterexample): for the drained sequence
`[Token "a", Error "boom"]`, `check_queue` performs the terminal action
(`display_error_message`) *before* the pending token text is flushed — the
flush only happens afterwards, in the `finally` block — contradicting the
claim that the flush precedes the terminal action for an `Error` terminal. -/
theorem check_queue_error_precedes_pending_flush :
    (check_queue_tick [.token "a", .error "boom"] initUIState).events =
      [.errored "boom", .updated "a"] ∧
    ¬ (check_queue_tick [.token "a", .error "boom"] initUIState).events =
      [.updated "a", .errored "boom"] := by
  constructor
  · rfl
  · decide

theorem foldl_tokens (ts : List String) (s : UIState) :
    (ts.map StreamMsg.token).foldl checkQueueStep s =
      { s with streamChunks := s.streamChunks ++ ts
               streamDirty := s.streamDirty || !ts.isEmpty } := by
  induction ts generalizing s with
  | nil => simp
  | cons t rest ih =>
    simp only [List.map_cons, List.foldl_cons, checkQueueStep, ih, List.isEmpty_cons]
    simp [List.append_assoc]

/-- Claim C3 (amended): for a drained sequence of N tokens followed by one
terminal message, starting from a clean in-flight state, the reconstructed
display text equals the concatenation of the N tokens in production order.
For an `End` terminal the pending token text is flushed (one `updated`
event with the full concatenation) strictly before the finalization; for
an `Error` terminal the error is rendered first and the pending token text
is flushed afterwards, in the same tick, by the `finally` block (so it is
still not lost, but the terminal action precedes the flush). -/
theorem check_queue_tick_flush_order (ts : List String) (f e : String) :
    (check_queue_tick (ts.map .token ++ [.streamEnd f]) initUIState).events =
      (if ts.isEmpty then [] else [.updated (ts.foldr (· ++ ·) "")]) ++ [.finalized f] ∧
    (check_queue_tick (ts.map .token ++ [.error e]) initUIState).events =
      .errored e :: (if ts.isEmpty then [] else [.updated (ts.foldr (· ++ ·) "")]) := by
  cases ts with
  | nil =>
    constructor
    · rfl
    · rfl
  | cons t rest =>
    constructor
    · simp only [check_queue_tick, List.foldl_append, foldl_tokens, List.isEmpty_cons]
      simp [checkQueueStep, flushChunks, finallyFlush, initUIState, str_empty_append]
    · simp only [check_queue_tick, List.foldl_append, foldl_tokens, List.isEmpty_cons]
      simp [checkQueueStep, flushChunks, finallyFlush, initUIState, str_empty_append]

/-- Claim C7 (counterexample): a mapping-style chunk whose first `choices`
element is an attribute-style object carrying text `"hi"` is in the shape
family the claim describes, yet the extraction step yields `""` rather
than the text delta: the dict branch (lines 963-966) only reads a first
element that is itself a dict, and the attribute branch is never tried
for a dict chunk. -/
theorem mapping_chunk_attr_choice_text_not_extracted :
    extract_chunk_token (.mapChunk (some [.objElem (some (some "hi"))])) = "" ∧
    ¬ extract_chunk_token (.mapChunk (some [.objElem (some (some "hi"))])) = "hi" := by
  constructor
  · rfl
  · decide

/-- Claim C7 (amended): the token-extraction step is a total function
(never an error) with this value table: a mapping chunk yields the text
delta only when the first `choices` element is itself a mapping, and
yields `""` when the first element is attribute-style; an object chunk
yields the delta for both element shapes; every chunk from which no text
is extractable (missing/None/empty `choices`, foreign first element or
foreign chunk shape, missing/None text) yields the empty string. -/
theorem extract_chunk_token_shape_table :
    (∀ t rest, extract_chunk_token (.mapChunk (some (.mapElem t :: rest))) = textOrEmpty t) ∧
    (∀ t rest, extract_chunk_token (.objChunk (some (.mapElem t :: rest))) = textOrEmpty t) ∧
    (∀ t rest, extract_chunk_token (.objChunk (some (.objElem t :: rest))) = textOrEmpty t) ∧
    (∀ t rest, extract_chunk_token (.mapChunk (some (.objElem t :: rest))) = "") ∧
    (∀ rest, extract_chunk_token (.mapChunk (some (.otherElem :: rest))) = "") ∧
    (∀ rest, extract_chunk_token (.objChunk (some (.otherElem :: rest))) = "") ∧
    extract_chunk_token (.mapChunk none) = "" ∧
    extract_chunk_token (.objChunk none) = "" ∧
    extract_chunk_token (.mapChunk (some [])) = "" ∧
    extract_chunk_token (.objChunk (some [])) = "" ∧
    extract_chunk_token .otherChunk = "" :=
  ⟨fun _ _ => rfl, fun _ _ => rfl, fun _ _ => rfl, fun _ _ => rfl, fun _ => rfl,
   fun _ => rfl, rfl, rfl, rfl, rfl, rfl⟩

theorem streamLoop_break (chunks : List Chunk) (k : Nat) (h : k < chunks.length) :
    streamLoop chunks k =
      (emitTokens (chunks.take k) ++ [.error stopErrorText], tokenConcat (chunks.take k), true) := by
  induction chunks generalizing k with
  | nil => simp at h
  | cons c rest ih =>
    cases k with
    | zero => simp [streamLoop, emitTokens, tokenConcat]
    | succ k =>
      have hk : k < rest.length := by simpa using h
      simp only [streamLoop, ih k hk, List.take_succ_cons]
      by_cases ht : extract_chunk_token c = ""
      · simp [ht, emitTokens, tokenConcat, str_empty_append]
      · simp [ht, emitTokens, tokenConcat]

theorem streamLoop_complete (chunks : List Chunk) (k : Nat) (h : chunks.length ≤ k) :
    streamLoop chunks k = (emitTokens chunks, tokenConcat chunks, false) := by
  induction chunks generalizing k with
  | nil => simp [streamLoop, emitTokens, tokenConcat]
  | cons c rest ih =>
    cases k with
    | zero => simp at h
    | succ k =>
      have hk : rest.length ≤ k := by simpa using h
      simp only [streamLoop, ih k hk]
      by_cases ht : extract_chunk_token c = ""
      · simp [ht, emitTokens, tokenConcat, str_empty_append]
      · simp [ht, emitTokens, tokenConcat]

theorem generate_normal_run (conv : List PyMsg) (userMessage now : String)
    (chunks : List Chunk) (cancelAt : Nat)
    (himg : isImageRequest userMessage = false) (h : chunks.length < cancelAt) :
    generate_response_streaming conv userMessage chunks cancelAt now =
      { modelCalled := true
        emitted := emitTokens chunks ++ [.streamEnd (finalizedContent conv userMessage chunks)]
        conv := conv ++
          [{ role := "assistant", content := finalizedContent conv userMessage chunks,
             timestamp := now }]
        saves := [conv ++
          [{ role := "assistant", content := finalizedContent conv userMessage chunks,
             timestamp := now }]]
        observedCancel := false } := by
  have hle : ¬ cancelAt ≤ chunks.length := by omega
  rw [generate_response_streaming, streamLoop_complete chunks cancelAt (Nat.le_of_lt h)]
  simp only [himg, Bool.false_eq_true, if_false, hle, finalizedContent]
  split_ifs <;> rfl

/-- Claim C4 (counterexample): the cancel flag set between the last chunk
check and the post-loop check (lines 979) is observed set, yet the run
delivers zero `Error` messages (and no `End` either): the loop exits
normally without pushing the cancellation error, and the post-loop branch
is skipped.  This contradicts the claim that exactly one `Error` is
eventually delivered once the flag is observed set. -/
theorem cancel_observed_after_last_chunk_delivers_no_error :
    (generate_response_streaming [] "bonjour" [sampleChunk "hello"] 1 "t").observedCancel = true ∧
    (generate_response_streaming [] "bonjour" [sampleChunk "hello"] 1 "t").emitted =
      [.token "hello"] ∧
    ¬ ((generate_response_streaming [] "bonjour" [sampleChunk "hello"] 1 "t").emitted.filter
        (fun msg => match msg with | .error _ => true | _ => false)).length = 1 := by
  decide

/-- Claim C4 (amended): when the cancel flag is first observed set at a
chunk-boundary check before the stream is exhausted, no token is produced
from that chunk on — the emitted sequence is exactly the tokens of the
chunks consumed before the observation followed by one `Error` message —
and nothing is appended to or persisted from the conversation.  (When the
flag is first observed only at the post-stream check, no further tokens
are produced trivially, but no `Error` and no `End` is delivered, per the
counterexample.) -/
theorem cancel_at_chunk_boundary_stops_tokens_and_emits_one_error
    (conv : List PyMsg) (userMessage now : String) (chunks : List Chunk) (cancelAt : Nat)
    (himg : isImageRequest userMessage = false) (h : cancelAt < chunks.length) :
    (generate_response_streaming conv userMessage chunks cancelAt now).emitted =
      emitTokens (chunks.take cancelAt) ++ [.error stopErrorText] ∧
    (generate_response_streaming conv userMessage chunks cancelAt now).conv = conv ∧
    (generate_response_streaming conv userMessage chunks cancelAt now).saves = [] := by
  have hle : cancelAt ≤ chunks.length := Nat.le_of_lt h
  rw [generate_response_streaming, streamLoop_break chunks cancelAt h]
  simp [himg, hle]

theorem cancel_at_chunk_boundary_witness :
    (generate_response_streaming [] "bonjour" [sampleChunk "a", sampleChunk "b"] 1 "t").emitted =
      emitTokens ([sampleChunk "a", sampleChunk "b"].take 1) ++ [.error stopErrorText] ∧
    (generate_response_streaming [] "bonjour" [sampleChunk "a", sampleChunk "b"] 1 "t").conv = [] ∧
    (generate_response_streaming [] "bonjour" [sampleChunk "a", sampleChunk "b"] 1 "t").saves = [] :=
  cancel_at_chunk_boundary_stops_tokens_and_emits_one_error
    [] "bonjour" "t" [sampleChunk "a", sampleChunk "b"] 1 (by decide) (by decide)

/-- Claim C5: when the finalized response text is identical — after
stripping whitespace and lowercasing — to the content of the
conversation's most recent assistant message, the normal completion path
discards it: the appended and persisted assistant message carries the
synthesized fallback snippet (`generate_statistics_code`) instead, and
the fallback, not the duplicate, is emitted as the terminal `End`. -/
theorem duplicate_finalized_response_replaced_by_fallback
    (conv : List PyMsg) (userMessage now : String) (chunks : List Chunk) (cancelAt : Nat)
    (m : PyMsg)
    (himg : isImageRequest userMessage = false)
    (hnc : chunks.length < cancelAt)
    (hlast : (conv.filter (fun x => x.role == "assistant")).getLast? = some m)
    (hdup : pyLower (pyStrip m.content) =
      pyLower (pyStrip (format_code_response (pyStrip (tokenConcat chunks)) userMessage))) :
    (generate_response_streaming conv userMessage chunks cancelAt now).conv =
      conv ++ [{ role := "assistant", content := generate_statistics_code userMessage,
                 timestamp := now }] ∧
    (generate_response_streaming conv userMessage chunks cancelAt now).saves =
      [conv ++ [{ role := "assistant", content := generate_statistics_code userMessage,
                  timestamp := now }]] ∧
    (generate_response_streaming conv userMessage chunks cancelAt now).emitted =
      emitTokens chunks ++ [.streamEnd (generate_statistics_code userMessage)] := by
  have hdupb : is_duplicate_response conv
      (format_code_response (pyStrip (tokenConcat chunks)) userMessage) = true := by
    simp [is_duplicate_response, hlast, hdup]
  rw [generate_normal_run conv userMessage now chunks cancelAt himg hnc]
  simp [finalizedContent, hdupb]

theorem duplicate_finalized_response_witness :
    (generate_response_streaming [⟨"assistant", "Bonjour", "t0"⟩] "salut"
        [sampleChunk "  bonjour "] 2 "t1").conv =
      [⟨"assistant", "Bonjour", "t0"⟩] ++
        [{ role := "assistant", content := generate_statistics_code "salut",
           timestamp := "t1" }] ∧
    (generate_response_streaming [⟨"assistant", "Bonjour", "t0"⟩] "salut"
        [sampleChunk "  bonjour "] 2 "t1").saves =
      [[⟨"assistant", "Bonjour", "t0"⟩] ++
        [{ role := "assistant", content := generate_statistics_code "salut",
           timestamp := "t1" }]] ∧
    (generate_response_streaming [⟨"assistant", "Bonjour", "t0"⟩] "salut"
        [sampleChunk "  bonjour "] 2 "t1").emitted =
      emitTokens [sampleChunk "  bonjour "] ++
        [.streamEnd (generate_statistics_code "salut")] :=
  duplicate_finalized_response_replaced_by_fallback
    [⟨"assistant", "Bonjour", "t0"⟩] "salut" "t1" [sampleChunk "  bonjour "] 2
    ⟨"assistant", "Bonjour", "t0"⟩ (by decide) (by decide) (by decide) (by decide)

/-- Claim C9: a user message matching the image-generation keyword list
(case-insensitively) pre-empts the model call entirely: the streaming
completion API is never invoked, no `Token` message is produced, and the
single delivered message is `End` carrying the fixed disclaimer text
verbatim. -/
theorem image_request_skips_model_and_ends_with_disclaimer
    (conv : List PyMsg) (userMessage now : String) (chunks : List Chunk) (cancelAt : Nat)
    (h : isImageRequest userMessage = true) :
    generate_response_streaming conv userMessage chunks cancelAt now =
      { modelCalled := false, emitted := [.streamEnd imageDisclaimer], conv := conv
        saves := [], observedCancel := false } := by
  rw [generate_response_streaming]
  simp [h]

theorem image_request_skips_model_witness :
    generate_response_streaming [] "génère une image de chat" [sampleChunk "x"] 5 "t" =
      { modelCalled := false, emitted := [.streamEnd imageDisclaimer], conv := []
        saves := [], observedCancel := false } :=
  image_request_skips_model_and_ends_with_disclaimer
    [] "génère une image de chat" "t" [sampleChunk "x"] 5 (by decide)

/-- Claim C10: in the image-generation pre-emption branch the disclaimer
is only pushed onto the response queue: the in-memory conversation is
left unchanged and nothing is persisted (the disclaimer is never appended
as an assistant message, never saved), whereas the normal completion path
appends the finalized content as an assistant message and persists the
extended conversation. -/
theorem image_branch_leaves_conversation_and_saves_unchanged
    (conv : List PyMsg) (userMessage now : String) (chunks : List Chunk) (cancelAt : Nat) :
    (isImageRequest userMessage = true →
      (generate_response_streaming conv userMessage chunks cancelAt now).conv = conv ∧
      (generate_response_streaming conv userMessage chunks cancelAt now).saves = [] ∧
      (generate_response_streaming conv userMessage chunks cancelAt now).emitted =
        [.streamEnd imageDisclaimer]) ∧
    (isImageRequest userMessage = false → chunks.length < cancelAt →
      (generate_response_streaming conv userMessage chunks cancelAt now).conv =
        conv ++ [{ role := "assistant", content := finalizedContent conv userMessage chunks,
                   timestamp := now }] ∧
      (generate_response_streaming conv userMessage chunks cancelAt now).saves =
        [(generate_response_streaming conv userMessage chunks cancelAt now).conv]) := by
  constructor
  · intro h
    rw [generate_response_streaming]
    simp [h]
  · intro himg h
    rw [generate_normal_run conv userMessage now chunks cancelAt himg h]
    exact ⟨rfl, rfl⟩

theorem image_branch_frame_witness :
    ((generate_response_streaming [] "génère une image de chat" [] 0 "t").conv = [] ∧
     (generate_response_streaming [] "génère une image de chat" [] 0 "t").saves = [] ∧
     (generate_response_streaming [] "génère une image de chat" [] 0 "t").emitted =
       [.streamEnd imageDisclaimer]) ∧
    ((generate_response_streaming [] "bonjour" [] 1 "t").conv =
      [] ++ [{ role := "assistant", content := finalizedContent [] "bonjour" [],
               timestamp := "t" }] ∧
     (generate_response_streaming [] "bonjour" [] 1 "t").saves =
       [(generate_response_streaming [] "bonjour" [] 1 "t").conv]) :=
  ⟨(image_branch_leaves_conversation_and_saves_unchanged
      [] "génère une image de chat" "t" [] 0).1 (by decide),
   (image_branch_leaves_conversation_and_saves_unchanged
      [] "bonjour" "t" [] 1).2 (by decide) (by decide)⟩

theorem foldl_append_renderLines (l : List PyMsg) (pre : String) :
    l.foldl (fun acc m => acc ++ renderHistoryLine m) pre =
      pre ++ (l.map renderHistoryLine).foldr (· ++ ·) "" := by
  induction l generalizing pre with
  | nil => simp [str_append_empty]
  | cons m rest ih =>
    simp only [List.foldl_cons, List.map_cons, List.foldr_cons, ih, str_append_assoc]

/-- Claim C6 (counterexample): with an empty conversation history,
`build_prompt` does not produce the claimed composition at all — it
returns a fixed standalone template (lines 897-902) that embeds the user
message inline and unconditionally contains a code instruction, instead
of the preamble/history/user-message/conditional-instruction shape (here
instantiated with the non-keyword message `"salut"`). -/
theorem build_prompt_empty_history_not_spec_shape :
    build_prompt "salut" [] = emptyHistoryPrompt "salut" ∧
    ¬ build_prompt "salut" [] = specPromptShape "salut" [] := by
  constructor
  · rfl
  · decide

/-- Claim C6 (amended): whenever the conversation history is non-empty,
the built prompt consists exactly of the fixed preamble (the history
header line), the last 6 messages of history rendered as "Role: content"
lines, the new user message, the code-only instruction appended exactly
when the user message contains a programming-related keyword, and the
closing role cue.  (With an empty history a fixed standalone template is
returned instead, per the counterexample.) -/
theorem build_prompt_nonempty_history_spec_shape (userMessage : String)
    (conv : List PyMsg) (h : conv ≠ []) :
    build_prompt userMessage conv = specPromptShape userMessage conv := by
  rw [build_prompt, if_neg h]
  rw [specPromptShape]
  simp only [foldl_append_renderLines]
  by_cases hk : hasCodeKeywordPrompt userMessage
  · simp [hk, str_append_assoc]
  · simp [hk, str_append_assoc, str_empty_append]

theorem build_prompt_nonempty_history_witness :
    build_prompt "salut" [⟨"user", "bonjour", "t0"⟩] =
      specPromptShape "salut" [⟨"user", "bonjour", "t0"⟩] :=
  build_prompt_nonempty_history_spec_shape "salut" [⟨"user", "bonjour", "t0"⟩] (by decide)

theorem findSub_bound (pat : List Char) (l : List Char) (d : Nat)
    (h : findSub pat l = some d) : d + pat.length ≤ l.length := by
  induction l generalizing d with
  | nil =>
    cases pat with
    | nil => rw [findSub] at h; cases h; simp
    | cons p ps => rw [findSub] at h; cases h
  | cons c rest ih =>
    rw [findSub] at h
    split at h
    · cases h
      simpa using List.IsPrefix.length_le (List.isPrefixOf_iff_prefix.1 (by assumption))
    · cases hm : findSub pat rest with
      | none => rw [hm] at h; cases h
      | some d' =>
        rw [hm] at h
        cases h
        have := ih d' hm
        simp only [List.length_cons]
        omega

theorem lastNewlineIdx_lt (l : List Char) (k : Nat) (h : lastNewlineIdx l = some k) :
    k < l.length := by
  induction l generalizing k with
  | nil => cases h
  | cons c rest ih =>
    rw [lastNewlineIdx] at h
    cases hm : lastNewlineIdx rest with
    | some k' =>
      rw [hm] at h
      cases h
      have := ih k' hm
      simp only [List.length_cons]
      omega
    | none =>
      rw [hm] at h
      by_cases hcn : (c == '\n') = true
      · rw [if_pos hcn] at h
        cases h
        simp
      · rw [if_neg hcn] at h
        cases h

theorem takeWhile_length_le (p : Char → Bool) (l : List Char) :
    (l.takeWhile p).length ≤ l.length := by
  induction l with
  | nil => simp
  | cons a l ih =>
    rw [List.takeWhile]
    by_cases hp : p a = true
    · rw [hp]
      simpa using ih
    · simp only [Bool.not_eq_true] at hp
      rw [hp]
      simp

theorem tryMatchFence_bound (t : List Char) (consumed : Nat) (lang : String)
    (inner : List Char) (h : tryMatchFence t = some (consumed, lang, inner)) :
    consumed ≤ t.length := by
  rw [tryMatchFence] at h
  cases hnl : lastNewlineIdx ((t.drop (t.takeWhile isWordChar).length).takeWhile isPySpace) with
  | none => rw [hnl] at h; cases h
  | some k =>
    rw [hnl] at h
    dsimp only [] at h
    cases hfs : findSub "```".data ((t.drop (t.takeWhile isWordChar).length).drop (k + 1)) with
    | none => rw [hfs] at h; cases h
    | some cc =>
      rw [hfs] at h
      simp only [Option.some_inj, Prod.mk.injEq] at h
      obtain ⟨hcons, -, -⟩ := h
      have hw : (t.takeWhile isWordChar).length ≤ t.length := takeWhile_length_le _ _
      have hk : k < ((t.drop (t.takeWhile isWordChar).length).takeWhile isPySpace).length :=
        lastNewlineIdx_lt _ _ hnl
      have hk2 : ((t.drop (t.takeWhile isWordChar).length).takeWhile isPySpace).length ≤
          (t.drop (t.takeWhile isWordChar).length).length :=
        takeWhile_length_le _ _
      have hcc := findSub_bound _ _ _ hfs
      have hpat : ("```".data).length = 3 := rfl
      rw [hpat, List.length_drop, List.length_drop] at hcc
      rw [List.length_drop] at hk2
      omega

theorem chainedB_mono (len lo lo' : Nat) (bs : List CodeBlock) (h : lo' ≤ lo)
    (hc : ChainedB len lo bs) : ChainedB len lo' bs := by
  cases bs with
  | nil => trivial
  | cons b rest =>
    obtain ⟨h1, hrest⟩ := hc
    exact ⟨Nat.le_trans h h1, hrest⟩

theorem scanFences_chained (cs : List Char) (fuel i : Nat) :
    ChainedB cs.length i ((scanFences cs i fuel).map CodeMatch.toBlock) := by
  induction fuel generalizing i with
  | zero => rw [scanFences]; trivial
  | succ fuel ih =>
    rw [scanFences]
    cases hfs : findSub "```".data (cs.drop i) with
    | none => trivial
    | some d =>
      dsimp only []
      cases htm : tryMatchFence (cs.drop (i + d + 3)) with
      | none =>
        dsimp only []
        exact chainedB_mono _ _ _ _ (by omega) (ih (i + d + 1))
      | some res =>
        obtain ⟨consumed, lang, inner⟩ := res
        dsimp only []
        simp only [List.map_cons]
        dsimp only [CodeMatch.toBlock]
        have hd := findSub_bound _ _ _ hfs
        have hc := tryMatchFence_bound _ _ _ _ htm
        have hpat : ("```".data).length = 3 := rfl
        rw [hpat, List.length_drop] at hd
        rw [List.length_drop] at hc
        refine ⟨?_, ?_, ?_, ih _⟩ <;> (dsimp only []; omega)

theorem list_take_add (l : List α) (m n : Nat) :
    l.take (m + n) = l.take m ++ (l.drop m).take n := by
  induction m generalizing l with
  | zero => simp
  | succ m ih =>
    cases l with
    | nil => simp
    | cons a l => simp [Nat.succ_add, ih]

theorem pySlice_append (cs : List Char) (a b c : Nat) (hab : a ≤ b) (hbc : b ≤ c) :
    pySlice cs a b ++ pySlice cs b c = pySlice cs a c := by
  show String.mk ((cs.drop a).take (b - a) ++ (cs.drop b).take (c - b)) = _
  have h1 : c - a = (b - a) + (c - b) := by omega
  have h2 : (cs.drop a).drop (b - a) = cs.drop b := by
    rw [List.drop_drop]
    congr 1
    omega
  rw [pySlice, h1, list_take_add, h2]

theorem segConcat_cons (s : Segment) (l : List Segment) :
    segConcat (s :: l) = s.raw ++ segConcat l := rfl

theorem segConcat_append (l1 l2 : List Segment) :
    segConcat (l1 ++ l2) = segConcat l1 ++ segConcat l2 := by
  induction l1 with
  | nil => simp [segConcat, str_empty_append]
  | cons s l ih => simp only [List.cons_append, segConcat_cons, ih, str_append_assoc]

theorem pySlice_self (cs : List Char) (a : Nat) : pySlice cs a a = "" := by
  simp [pySlice]

theorem segConcat_walk (cs : List Char) (bs : List CodeBlock) (pos : Nat)
    (hc : ChainedB cs.length pos bs) (hp : pos ≤ cs.length) :
    segConcat (segmentWalk cs bs pos) = pySlice cs pos cs.length := by
  induction bs generalizing pos with
  | nil =>
    rw [segmentWalk]
    by_cases hlt : pos < cs.length
    · simp [hlt, segConcat, str_append_empty, Segment.raw]
    · have hpe : pos = cs.length := by omega
      subst hpe
      simp [hlt, segConcat, pySlice_self]
  | cons b rest ih =>
    obtain ⟨h1, h2, h3, h4⟩ := hc
    rw [segmentWalk, segConcat_append, segConcat_cons, ih b.stop h4 h3]
    have hinner : pySlice cs b.start b.stop ++ pySlice cs b.stop cs.length =
        pySlice cs b.start cs.length := pySlice_append cs _ _ _ h2 h3
    by_cases hgt : b.start > pos
    · simp only [hgt, if_true]
      rw [segConcat_cons]
      show pySlice cs pos b.start ++ "" ++ (pySlice cs b.start b.stop ++ _) = _
      rw [str_append_empty, hinner]
      exact pySlice_append cs _ _ _ h1 (Nat.le_trans h2 h3)
    · have hpe : pos = b.start := by omega
      subst hpe
      simp only [hgt, if_false]
      rw [segConcat]
      show "" ++ (Segment.raw _ ++ _) = _
      rw [str_empty_append]
      show pySlice cs b.start b.stop ++ _ = _
      exact hinner

theorem extract_code_blocks_chained (text : String) :
    ChainedB text.data.length 0 (extract_code_blocks text) := by
  rw [extract_code_blocks]
  split
  · exact ⟨Nat.le_refl 0, Nat.zero_le _, Nat.le_refl _, trivial⟩
  · exact scanFences_chained text.data _ 0

/-- Claim C8: the prose/code segmentation that
`display_ai_message_with_code` performs on a finalized message — prose
gaps interleaved with the fenced-block spans produced by
`extract_code_blocks`, via the `current_pos`/`start`/`end` walk —
accounts for every character of the original message exactly once: the
concatenation of the segments' raw spans reconstructs the message with no
character dropped or duplicated at any segment boundary. -/
theorem display_segments_account_every_character_once (text : String) :
    segConcat (display_segments text) = text := by
  rw [display_segments]
  by_cases hb : (extract_code_blocks text).isEmpty
  · simp only [hb, if_true]
    show Segment.raw (.prose text) ++ "" = text
    rw [str_append_empty]
    rfl
  · simp only [hb, Bool.false_eq_true, if_false]
    rw [segConcat_walk text.data (extract_code_blocks text) 0
      (extract_code_blocks_chained text) (Nat.zero_le _)]
    show String.mk ((text.data.drop 0).take (text.data.length - 0)) = text
    simp only [List.drop_zero, Nat.sub_zero, List.take_length]

end PrometheusSpec
